import Mathlib

/-!
Verification of `build_videos.py`, a build-time batch video converter.

The development shallowly embeds the relevant parts of the source:
bytes are `Nat` values (with `% 256` where packing happens), files are
`List Nat`, paths are `String`, and the filesystem is modelled explicitly
where a claim needs it.
-/

namespace BuildVideos

/-! ### Container header (`MAGIC`, `VERSION`, `HEADER_STRUCT`) -/

/-- Bytes of the ASCII magic tag `b"VID0"` (src line 25). -/
def MAGIC : List Nat := [86, 73, 68, 48]

/-- Container format version (src line 26). -/
def VERSION : Nat := 1

/-- Little-endian byte serialisation of `n` into `k` bytes, the semantics of
`struct.pack` with formats `<I` (`k = 4`) and `<Q` (`k = 8`). -/
def leBytes : Nat → Nat → List Nat
  | 0, _ => []
  | k + 1, n => n % 256 :: leBytes k (n / 256)

/-- Little-endian decoding of a byte list back into a number. -/
def decodeLE : List Nat → Nat
  | [] => 0
  | b :: bs => b + 256 * decodeLE bs

/-- `HEADER_STRUCT.pack(MAGIC, VERSION, size)` with format `"<4sIQ"`
(src line 27): 4 magic bytes, 4-byte little-endian uint32 version,
8-byte little-endian uint64 payload size; 16 bytes total, no padding. -/
def headerPack (size : Nat) : List Nat :=
  MAGIC ++ leBytes 4 VERSION ++ leBytes 8 size

/-! ### `shutil.copyfileobj(fin, fout, length=bufsize)` -/

/-- One loop of `shutil.copyfileobj`: read at most `bufsize` bytes, stop on an
empty read, otherwise write the chunk and continue.  `fuel` bounds the number
of iterations (any `fuel ≥ data.length` is enough when `bufsize > 0`). -/
def copyChunks (bufsize : Nat) : Nat → List Nat → List Nat
  | 0, _ => []
  | _ + 1, [] => []
  | fuel + 1, b :: rest =>
      (b :: rest).take bufsize ++ copyChunks bufsize fuel ((b :: rest).drop bufsize)

/-- `shutil.copyfileobj` over in-memory data: loop with `data.length` fuel,
which suffices for every positive buffer size. -/
def copyfileobj (bufsize : Nat) (data : List Nat) : List Nat :=
  copyChunks bufsize data.length data

/-! ### `wrap_webm_to_video` (src lines 90-99), output content -/

/-- The byte content `wrap_webm_to_video` writes to the destination:
the packed 16-byte header for the source file's size, then the source bytes
streamed through `shutil.copyfileobj` with the fixed 1 MiB buffer
(src lines 94-99). -/
def wrapOutput (payload : List Nat) : List Nat :=
  headerPack payload.length ++ copyfileobj (1024 * 1024) payload

/-- Same writer with the transfer-buffer size as a parameter, for the
buffer-size-independence claim. -/
def wrapOutputBuf (bufsize : Nat) (payload : List Nat) : List Nat :=
  headerPack payload.length ++ copyfileobj bufsize payload

/-- Naive whole-file copy of the payload after the header: the reference
implementation the streamed writer is compared against. -/
def wrapNaive (payload : List Nat) : List Nat :=
  headerPack payload.length ++ payload

/-- Modelled from the spec: the repository has no container reader; spec §8
describes reading back a container by validating magic and version, decoding
the little-endian `payload_size`, skipping the 16-byte header and taking
`payload_size` bytes. -/
def readContainer (bytes : List Nat) : Option (Nat × List Nat) :=
  if bytes.take 4 = MAGIC ∧ decodeLE ((bytes.drop 4).take 4) = VERSION then
    let size := decodeLE ((bytes.drop 8).take 8)
    some (size, (bytes.drop 16).take size)
  else
    none

/-! ### Helper lemmas -/

theorem leBytes_length (k n : Nat) : (leBytes k n).length = k := by
  induction k generalizing n with
  | zero => rfl
  | succ k ih => simp [leBytes, ih]

theorem decodeLE_leBytes (k n : Nat) : decodeLE (leBytes k n) = n % 256 ^ k := by
  induction k generalizing n with
  | zero => simp [leBytes, decodeLE, Nat.mod_one]
  | succ k ih =>
      rw [leBytes, decodeLE, ih]
      rw [pow_succ, Nat.mul_comm (256 ^ k) 256, Nat.mod_mul]

theorem copyChunks_eq (bufsize : Nat) (hb : 0 < bufsize) :
    ∀ (fuel : Nat) (data : List Nat), data.length ≤ fuel →
      copyChunks bufsize fuel data = data := by
  intro fuel
  induction fuel with
  | zero =>
      intro data hlen
      have : data = [] := List.eq_nil_of_length_eq_zero (Nat.le_zero.mp hlen)
      subst this
      rfl
  | succ fuel ih =>
      intro data hlen
      cases data with
      | nil => rfl
      | cons b rest =>
          rw [copyChunks]
          have hdrop : ((b :: rest).drop bufsize).length ≤ fuel := by
            rw [List.length_drop]
            simp only [List.length_cons] at hlen ⊢
            omega
          rw [ih _ hdrop, List.take_append_drop]

theorem copyfileobj_eq (bufsize : Nat) (hb : 0 < bufsize) (data : List Nat) :
    copyfileobj bufsize data = data :=
  copyChunks_eq bufsize hb data.length data (Nat.le_refl _)

theorem headerPack_length (size : Nat) : (headerPack size).length = 16 := by
  simp [headerPack, MAGIC, leBytes_length]

theorem wrapOutput_eq (payload : List Nat) :
    wrapOutput payload = headerPack payload.length ++ payload := by
  rw [wrapOutput, copyfileobj_eq _ (by norm_num)]

/-! ### Claim theorems C1-C3 -/

/-- C1: for every payload, the container writer produces exactly a 16-byte
header — 4 ASCII bytes `"VID0"`, then version 1 as little-endian uint32,
then the payload size as little-endian uint64 — followed by the payload
verbatim; the total length is `16 + payload_size`, and at the boundary
`payload_size = 0` the container is exactly the 16 header bytes. -/
theorem c1_container_layout (payload : List Nat) :
    wrapOutput payload
      = [86, 73, 68, 48] ++ leBytes 4 1 ++ leBytes 8 payload.length ++ payload ∧
    (wrapOutput payload).length = 16 + payload.length ∧
    (wrapOutput ([] : List Nat)).length = 16 := by
  refine ⟨?_, ?_, ?_⟩
  · rw [wrapOutput_eq]
    simp [headerPack, MAGIC, VERSION]
  · rw [wrapOutput_eq, List.length_append, headerPack_length]
  · rw [wrapOutput_eq]
    rfl

/-- C2: writing a container (magic `"VID0"`, version 1) and reading it back —
skipping the 16-byte header and taking `payload_size` bytes as recorded in the
header — recovers exactly the original payload bytes and the original
length. -/
theorem c2_round_trip (payload : List Nat) (h : payload.length < 2 ^ 64) :
    readContainer (wrapOutput payload) = some (payload.length, payload) := by
  have hL8 : (leBytes 8 payload.length).length = 8 := leBytes_length 8 _
  have htake : (leBytes 8 payload.length ++ payload).take 8 = leBytes 8 payload.length :=
    List.take_left' hL8
  have hdrop : (leBytes 8 payload.length ++ payload).drop 8 = payload :=
    List.drop_left' hL8
  have hlt : payload.length < 256 ^ 8 := by
    have h28 : (256 : Nat) ^ 8 = 2 ^ 64 := by norm_num
    rw [h28]
    exact h
  have hsize : decodeLE (leBytes 8 payload.length) = payload.length := by
    rw [decodeLE_leBytes]
    exact Nat.mod_eq_of_lt hlt
  rw [wrapOutput_eq]
  have hcons : headerPack payload.length ++ payload
      = 86 :: 73 :: 68 :: 48 :: 1 :: 0 :: 0 :: 0 :: (leBytes 8 payload.length ++ payload) := rfl
  rw [hcons]
  have hread : readContainer
        (86 :: 73 :: 68 :: 48 :: 1 :: 0 :: 0 :: 0 :: (leBytes 8 payload.length ++ payload))
      = some (decodeLE ((leBytes 8 payload.length ++ payload).take 8),
          ((leBytes 8 payload.length ++ payload).drop 8).take
            (decodeLE ((leBytes 8 payload.length ++ payload).take 8))) := rfl
  rw [hread, htake, hsize, hdrop, List.take_length]

/-- C3: for every payload and every positive transfer-buffer size, the
container writer produces a byte-identical output; buffer sizes 1 and 1 MiB
agree, and the streamed implementation equals the naive whole-file copy. -/
theorem c3_buffer_independence (payload : List Nat) (bufsize : Nat)
    (hb : 0 < bufsize) :
    wrapOutputBuf bufsize payload = wrapNaive payload ∧
    wrapOutputBuf 1 payload = wrapOutputBuf (1024 * 1024) payload ∧
    wrapOutput payload = wrapNaive payload := by
  refine ⟨?_, ?_, ?_⟩
  · rw [wrapOutputBuf, wrapNaive, copyfileobj_eq _ hb]
  · rw [wrapOutputBuf, wrapOutputBuf, copyfileobj_eq _ (by norm_num),
      copyfileobj_eq _ (by norm_num)]
  · rw [wrapOutput_eq, wrapNaive]

/-- Witness for C2 at a concrete payload. -/
theorem c2_round_trip_witness :
    readContainer (wrapOutput [7, 13, 255]) = some (3, [7, 13, 255]) :=
  c2_round_trip [7, 13, 255] (by norm_num)

/-- Witness for C3 at a concrete payload and buffer size. -/
theorem c3_buffer_independence_witness :
    wrapOutputBuf 1 [9, 8] = wrapNaive [9, 8] ∧
    wrapOutputBuf 1 [9, 8] = wrapOutputBuf (1024 * 1024) [9, 8] ∧
    wrapOutput [9, 8] = wrapNaive [9, 8] :=
  c3_buffer_independence [9, 8] 1 (by norm_num)

/-! ### Input enumeration (`VIDEO_EXTS`, `iter_inputs`, src lines 29-40, 102-111) -/

/-- The fixed allow-list of video extensions (src lines 29-40). -/
def VIDEO_EXTS : List String :=
  [".mp4", ".mov", ".mkv", ".avi", ".webm", ".m4v", ".mpg", ".mpeg", ".wmv", ".flv"]

/-- The final path component, the semantics of `pathlib.PurePath.name` for a
slash-separated path: the characters after the last slash. -/
def fileName (p : String) : String :=
  String.mk ((p.data.reverse.takeWhile fun c => c ≠ '/').reverse)

/-- ASCII lowercasing, the semantics of Python `str.lower()` on the
extensions involved here. -/
def lowerString (s : String) : String :=
  String.mk (s.data.map Char.toLower)

/-- Index of the last occurrence of a dot in a character list
(Python `str.rfind(".")`, restricted to the found case). -/
def rfindDot : List Char → Option Nat
  | [] => none
  | c :: cs =>
    match rfindDot cs with
    | some i => some (i + 1)
    | none => if c = '.' then some 0 else none

/-- `pathlib.PurePath.suffix`: the extension of the final component, with the
leading dot, empty when the last dot is at position 0 or at the very end. -/
def pySuffix (name : String) : String :=
  match rfindDot name.data with
  | some i =>
      if 0 < i ∧ i < name.data.length - 1 then String.mk (name.data.drop i) else ""
  | none => ""

/-- `pathlib.PurePath.stem`: the final component without its suffix. -/
def pyStem (name : String) : String :=
  match rfindDot name.data with
  | some i =>
      if 0 < i ∧ i < name.data.length - 1 then String.mk (name.data.take i) else name
  | none => name

/-- The filter from src line 110: `p.suffix.lower() in VIDEO_EXTS`. -/
def extAllowed (p : String) : Bool :=
  VIDEO_EXTS.contains (lowerString (pySuffix (fileName p)))

/-- A directory tree node: a file or a directory with children. -/
inductive FsNode where
  | file (name : String)
  | dir (name : String) (children : List FsNode)

/-- `src.glob("*")`: the immediate children of `src`, each tagged with whether
it is a regular file. -/
def globStar (pre : String) (children : List FsNode) : List (String × Bool) :=
  children.map fun c =>
    match c with
    | .file n => (pre ++ "/" ++ n, true)
    | .dir n _ => (pre ++ "/" ++ n, false)

mutual

/-- `src.glob("**/*")` restricted to one node: the node itself and, for a
directory, its whole subtree. -/
def globRecNode (pre : String) : FsNode → List (String × Bool)
  | .file n => [(pre ++ "/" ++ n, true)]
  | .dir n cs => (pre ++ "/" ++ n, false) :: globRecList (pre ++ "/" ++ n) cs

/-- `src.glob("**/*")`: every descendant of `src`, tagged with whether it is a
regular file. -/
def globRecList (pre : String) : List FsNode → List (String × Bool)
  | [] => []
  | c :: cs => globRecNode pre c ++ globRecList pre cs

end

/-- The body of `iter_inputs` for the directory case (src lines 109-111):
glob, keep regular files whose lowercased suffix is allow-listed, sort. -/
def iterDir (entries : List (String × Bool)) : List String :=
  List.insertionSort (· ≤ ·)
    ((entries.filter fun e => e.2 && extAllowed e.1).map Prod.fst)

/-- What the filesystem says about the `src` argument: an existing regular
file, an existing directory with the given children, or anything else. -/
inductive PathKind where
  | file
  | dir (children : List FsNode)
  | other

/-- `iter_inputs` (src lines 102-111): a file is returned as a singleton with
no filtering; a directory is globbed (recursively when asked), filtered by the
extension allow-list and sorted; anything else raises `FileNotFoundError`. -/
def iter_inputs (src : String) (kind : PathKind) (recursive : Bool) :
    Except String (List String) :=
  match kind with
  | .file => .ok [src]
  | .dir children =>
      .ok (iterDir (if recursive then globRecList src children else globStar src children))
  | .other => .error ("Input path not found: " ++ src)

theorem mem_iterDir (entries : List (String × Bool)) (p : String) :
    p ∈ iterDir entries ↔ (p, true) ∈ entries ∧ extAllowed p = true := by
  rw [iterDir, (List.perm_insertionSort _ _).mem_iff]
  constructor
  · intro hp
    obtain ⟨e, he, hfst⟩ := List.mem_map.mp hp
    obtain ⟨hmem, hcond⟩ := List.mem_filter.mp he
    obtain ⟨q, b⟩ := e
    obtain ⟨hb, hext⟩ := Bool.and_eq_true_iff.mp hcond
    cases hfst
    cases hb
    exact ⟨hmem, hext⟩
  · intro ⟨hin, hext⟩
    exact List.mem_map.mpr
      ⟨(p, true), List.mem_filter.mpr ⟨hin, by simp [hext]⟩, rfl⟩

theorem sorted_iterDir (entries : List (String × Bool)) :
    (iterDir entries).Sorted (· ≤ ·) :=
  List.sorted_insertionSort _ _

/-! ### Claim theorems C4 and C6 -/

/-- C4: enumerating a directory returns exactly the regular files of the
immediate children (or of the full subtree when recursive) whose extension
case-insensitively belongs to the allow-list, in lexicographic path order, so
the output over an unchanged directory is a deterministic sorted list. -/
theorem c4_dir_enumeration (src : String) (children : List FsNode) (recursive : Bool) :
    iter_inputs src (.dir children) recursive
      = .ok (iterDir (if recursive then globRecList src children else globStar src children)) ∧
    (∀ p, p ∈ iterDir (if recursive then globRecList src children else globStar src children)
        ↔ (p, true) ∈ (if recursive then globRecList src children else globStar src children)
          ∧ extAllowed p = true) ∧
    (iterDir (if recursive then globRecList src children else globStar src children)).Sorted
      (· ≤ ·) :=
  ⟨rfl, fun p => mem_iterDir _ p, sorted_iterDir _⟩

/-- C6: an existing regular file enumerates to exactly that one path with no
extension filtering, and a path that is neither an existing file nor an
existing directory raises `FileNotFoundError` naming the path. -/
theorem c6_file_and_missing (src : String) (recursive : Bool) :
    iter_inputs src PathKind.file recursive = .ok [src] ∧
    iter_inputs src PathKind.other recursive
      = .error ("Input path not found: " ++ src) :=
  ⟨rfl, rfl⟩

/-! ### `wrap_webm_to_video` as a state step (src lines 90-99) -/

/-- One call of `wrap_webm_to_video` seen through the destination file:
`old` is the destination's content before the call (`none` when absent).
If the destination exists and `force` is unset, `FileExistsError` is raised
before anything is opened, so the destination keeps its bytes; otherwise the
destination is opened with mode `"wb"` (truncating) and receives exactly the
header plus the streamed payload. -/
def wrapStep (dst : String) (old : Option (List Nat)) (payload : List Nat)
    (force : Bool) : Except String Unit × Option (List Nat) :=
  if old.isSome && !force then
    (.error ("Output exists: " ++ dst), old)
  else
    (.ok (), some (wrapOutput payload))

/-- C5: with the destination present and force unset, the writer fails with
`FileExistsError` and the destination's bytes are unchanged; with force set it
overwrites wholesale, leaving exactly the new header and payload with no
residue of the old content. -/
theorem c5_force_semantics (dst : String) (old payload : List Nat)
    (anyOld : Option (List Nat)) :
    wrapStep dst (some old) payload false
      = (.error ("Output exists: " ++ dst), some old) ∧
    wrapStep dst anyOld payload true
      = (.ok (), some (headerPack payload.length ++ payload)) := by
  constructor
  · rfl
  · rw [wrapStep]
    simp [wrapOutput_eq]

/-! ### `run_ffmpeg` failure semantics (src lines 85-87) -/

/-- The tail of `run_ffmpeg` (src lines 85-87): the subprocess is run once
with stderr merged into stdout; a non-zero return code raises `RuntimeError`
with the message `f"ffmpeg failed for \x7bsrc\x7d\n\x7bproc.stdout\x7d"`,
and a zero return code returns normally. -/
def run_ffmpeg (returncode : Int) (stdout : String) (src : String) :
    Except String Unit :=
  if returncode ≠ 0 then
    .error ("ffmpeg failed for " ++ src ++ "\n" ++ stdout)
  else
    .ok ()

/-- C7: whenever the external encoder exits non-zero, the single invocation
fails with an error whose message carries the source path and the captured
combined stdout/stderr text; a zero exit returns without error. -/
theorem c7_encoding_failure (returncode : Int) (stdout src : String)
    (h : returncode ≠ 0) :
    run_ffmpeg returncode stdout src
      = .error ("ffmpeg failed for " ++ src ++ "\n" ++ stdout) ∧
    run_ffmpeg 0 stdout src = .ok () := by
  constructor
  · rw [run_ffmpeg, if_pos h]
  · rfl

/-- Witness for C7 at a concrete failing invocation. -/
theorem c7_encoding_failure_witness :
    run_ffmpeg 1 "log text" "clip.mp4"
      = .error ("ffmpeg failed for " ++ "clip.mp4" ++ "\n" ++ "log text") ∧
    run_ffmpeg 0 "log text" "clip.mp4" = .ok () :=
  c7_encoding_failure 1 "log text" "clip.mp4" (by norm_num)

/-! ### `main` exit codes (src lines 158-161, 182, 185-191) -/

/-- The per-job loop of `main` (src lines 165-180): jobs run in order and the
first raised exception aborts the batch. -/
def runAll (f : String → Except String Unit) : List String → Except String Unit
  | [] => .ok ()
  | s :: rest =>
    match f s with
    | .error e => .error e
    | .ok () => runAll f rest

/-- The return value of `main` (src lines 158-182): an enumeration error
propagates; zero inputs return `1` after printing "No input videos found.";
otherwise the jobs run and `0` is returned when all of them succeed. -/
def mainCode (enum : Except String (List String))
    (f : String → Except String Unit) : Except String Nat :=
  match enum with
  | .error e => .error e
  | .ok inputs =>
    if inputs.isEmpty then .ok 1
    else
      match runAll f inputs with
      | .error e => .error e
      | .ok () => .ok 0

/-- The `__main__` wrapper (src lines 185-191): `sys.exit(main())` on normal
return, and exit code `2` after printing the message for any exception. -/
def processExit (r : Except String Nat) : Nat :=
  match r with
  | .ok n => n
  | .error _ => 2

theorem runAll_ok (f : String → Except String Unit) (inputs : List String)
    (h : ∀ s ∈ inputs, f s = .ok ()) : runAll f inputs = .ok () := by
  induction inputs with
  | nil => rfl
  | cons s rest ih =>
      rw [runAll, h s (List.mem_cons_self s rest)]
      exact ih fun t ht => h t (List.mem_cons_of_mem s ht)

/-- C8: the exit status is 0 when enumeration finds inputs and every job
succeeds, 1 when enumeration yields zero candidates, and 2 when any error is
raised (during enumeration or during a job); the empty-input status 1 is a
different value from the error status 2. -/
theorem c8_exit_codes (f : String → Except String Unit) :
    processExit (mainCode (.ok []) f) = 1 ∧
    (∀ inputs, inputs ≠ [] → (∀ s ∈ inputs, f s = .ok ()) →
      processExit (mainCode (.ok inputs) f) = 0) ∧
    (∀ e, processExit (mainCode (.error e) f) = 2) ∧
    (∀ inputs e, runAll f inputs = .error e →
      processExit (mainCode (.ok inputs) f) = 2) ∧
    processExit (mainCode (.ok []) f) ≠ processExit (mainCode (.error "x") f) := by
  refine ⟨rfl, ?_, fun e => rfl, ?_, fun hc => (by decide : ¬ ((1 : Nat) = 2)) hc⟩
  · intro inputs hne hall
    rw [mainCode]
    rw [if_neg (by simpa using hne)]
    rw [runAll_ok f inputs hall]
    rfl
  · intro inputs e herr
    rw [mainCode]
    have hne : inputs ≠ [] := by
      intro hnil
      rw [hnil] at herr
      exact Except.noConfusion herr
    rw [if_neg (by simpa using hne), herr]
    rfl

/-- Witness for C8 at concrete runs: one successful job, empty input, an
enumeration error, and a failing job. -/
theorem c8_exit_codes_witness :
    processExit (mainCode (.ok []) (fun _ => .ok ())) = 1 ∧
    processExit (mainCode (.ok ["a.mp4"]) (fun _ => .ok ())) = 0 ∧
    processExit (mainCode (.error "boom") (fun _ => .ok ())) = 2 ∧
    processExit (mainCode (.ok ["a.mp4"]) (fun _ => .error "enc")) = 2 := by
  obtain ⟨h1, h0, he, hj, _⟩ := c8_exit_codes (fun _ => Except.ok ())
  obtain ⟨_, _, _, hj2, _⟩ := c8_exit_codes (fun _ => Except.error "enc")
  exact ⟨h1, h0 ["a.mp4"] (by simp) (fun s _ => rfl), he "boom",
    hj2 ["a.mp4"] "enc" rfl⟩

/-! ### Output-path derivation and the per-stem collision (src lines 165-172) -/

/-- The intermediate path of a job (src line 168): the output root joined with
the source's stem and `.webm`; the source's own directory is discarded. -/
def webmPath (out src : String) : String :=
  out ++ "/" ++ pyStem (fileName src) ++ ".webm"

/-- The final container path of a job (src line 169): the output root joined
with the source's stem and `.video`. -/
def videoPath (out src : String) : String :=
  out ++ "/" ++ pyStem (fileName src) ++ ".video"

/-- A flat filesystem: each path either holds a file's bytes or nothing. -/
def FS : Type := String → Option (List Nat)

/-- Writing a file: the named path gets the new bytes, others are untouched. -/
def fsSet (fs : FS) (p : String) (v : List Nat) : FS :=
  fun q => if q = p then some v else fs q

/-- `wrap_webm_to_video` as a filesystem transformer (src lines 90-99): raise
`FileExistsError` when the destination exists and force is unset, otherwise
truncate-write the header plus payload at the destination. -/
def wrapFS (fs : FS) (dst : String) (payload : List Nat) (force : Bool) :
    Except String FS :=
  if (fs dst).isSome && !force then
    .error ("Output exists: " ++ dst)
  else
    .ok (fsSet fs dst (wrapOutput payload))

/-- C9: two sources with the same stem map to the same intermediate and final
output paths; after the first job's container is written, the second job's
wrap fails with `FileExistsError` when force is unset, and when force is set
it overwrites, so the stem's surviving container holds the second payload. -/
theorem c9_stem_collision (out s1 s2 : String) (p1 p2 : List Nat) (fs : FS)
    (hstem : pyStem (fileName s1) = pyStem (fileName s2))
    (hfresh : fs (videoPath out s1) = none) :
    webmPath out s1 = webmPath out s2 ∧
    videoPath out s1 = videoPath out s2 ∧
    wrapFS fs (videoPath out s1) p1 false
      = .ok (fsSet fs (videoPath out s1) (wrapOutput p1)) ∧
    wrapFS (fsSet fs (videoPath out s1) (wrapOutput p1)) (videoPath out s2) p2 false
      = .error ("Output exists: " ++ videoPath out s2) ∧
    ∃ fs2,
      wrapFS (fsSet fs (videoPath out s1) (wrapOutput p1)) (videoPath out s2) p2 true
        = .ok fs2 ∧
      fs2 (videoPath out s1) = some (wrapOutput p2) := by
  have hv : videoPath out s1 = videoPath out s2 := by
    rw [videoPath, videoPath, hstem]
  refine ⟨?_, hv, ?_, ?_, ?_⟩
  · rw [webmPath, webmPath, hstem]
  · simp [wrapFS, hfresh]
  · rw [← hv]
    simp [wrapFS, fsSet]
  · refine ⟨fsSet (fsSet fs (videoPath out s1) (wrapOutput p1)) (videoPath out s2)
      (wrapOutput p2), ?_, ?_⟩
    · simp [wrapFS]
    · rw [← hv]
      simp [fsSet]

/-- Witness for C9 at two concrete sources with the same stem in different
subdirectories, over an initially empty output directory. -/
theorem c9_stem_collision_witness :
    webmPath "out" "a/x.mp4" = webmPath "out" "b/x.mp4" ∧
    videoPath "out" "a/x.mp4" = videoPath "out" "b/x.mp4" ∧
    wrapFS (fun _ => none) (videoPath "out" "a/x.mp4") [1] false
      = .ok (fsSet (fun _ => none) (videoPath "out" "a/x.mp4") (wrapOutput [1])) ∧
    wrapFS (fsSet (fun _ => none) (videoPath "out" "a/x.mp4") (wrapOutput [1]))
        (videoPath "out" "b/x.mp4") [2, 3] false
      = .error ("Output exists: " ++ videoPath "out" "b/x.mp4") ∧
    ∃ fs2,
      wrapFS (fsSet (fun _ => none) (videoPath "out" "a/x.mp4") (wrapOutput [1]))
          (videoPath "out" "b/x.mp4") [2, 3] true
        = .ok fs2 ∧
      fs2 (videoPath "out" "a/x.mp4") = some (wrapOutput [2, 3]) :=
  c9_stem_collision "out" "a/x.mp4" "b/x.mp4" [1] [2, 3] (fun _ => none)
    (by decide) rfl

/-! ### Orchestration effects (src lines 158-180) -/

/-- An observable filesystem effect of `main`. -/
inductive Effect where
  | mkdirParents (dir : String)
  | encode (src : String) (dst : String)
  | writeVideo (dst : String)
  | unlink (p : String)

/-- The effects of one successful job in the loop of `main`
(src lines 165-180): encode to the intermediate path, wrap to the final path,
and unlink the intermediate unless `--keep-webm` was given. -/
def jobEffects (out : String) (keepWebm : Bool) (src : String) : List Effect :=
  [Effect.encode src (webmPath out src), Effect.writeVideo (videoPath out src)]
    ++ (if keepWebm then [] else [Effect.unlink (webmPath out src)])

/-- The effect trace and exit code of `main` plus the `__main__` wrapper for a
run whose jobs all succeed (src lines 158-182): a failed enumeration raises
before any effect; zero inputs return 1 before any effect — in particular
before the `out.mkdir(parents=True, exist_ok=True)` of src line 163 — and a
non-empty enumeration performs the mkdir first and then the jobs in order. -/
def mainTrace (enum : Except String (List String)) (out : String)
    (keepWebm : Bool) : List Effect × Nat :=
  match enum with
  | .error _ => ([], 2)
  | .ok inputs =>
    if inputs.isEmpty then ([], 1)
    else (Effect.mkdirParents out :: (inputs.map (jobEffects out keepWebm)).flatten, 0)

/-- C10: when enumeration yields zero files the run exits (code 1) with an
empty effect trace — no output directory is created and no file is written;
when enumeration fails no effect happens either; and the output directory is
created first, before any other effect, exactly when enumeration yields at
least one input. -/
theorem c10_mkdir_gating (out : String) (keepWebm : Bool) :
    mainTrace (.ok []) out keepWebm = ([], 1) ∧
    (∀ e, mainTrace (.error e) out keepWebm = ([], 2)) ∧
    (∀ inputs, inputs ≠ [] →
      (mainTrace (.ok inputs) out keepWebm).1.head? = some (Effect.mkdirParents out)) := by
  refine ⟨rfl, fun e => rfl, ?_⟩
  intro inputs hne
  cases inputs with
  | nil => exact absurd rfl hne
  | cons s rest => rfl

/-- Witness for C10 at a concrete non-empty enumeration. -/
theorem c10_mkdir_gating_witness :
    mainTrace (.ok []) "out" false = ([], 1) ∧
    mainTrace (.error "boom") "out" false = ([], 2) ∧
    (mainTrace (.ok ["a/x.mp4"]) "out" false).1.head?
      = some (Effect.mkdirParents "out") := by
  obtain ⟨h1, h2, h3⟩ := c10_mkdir_gating "out" false
  exact ⟨h1, h2 "boom", h3 ["a/x.mp4"] (by simp)⟩

end BuildVideos
